import Mathlib

/-!
Shallow embedding of `spid_oidc_rp/views.py` (django-jwtconnect-oidc-rp).

The repository source under verification is a Django relying-party module with
three entry points:

* `AgidOidcRpBeginView.get`        — builds the authorization request,
  persists an `OidcAuthenticationRequest` row and redirects;
* `AgidOidcRpCallbackView.get`     — resolves the pending flow by `state`,
  creates an `OidcAuthenticationToken` row, performs the token exchange,
  validates the id_token, fetches userinfo, maps attributes, reunifies the
  user and redirects;
* `oidc_rpinitiated_logout`        — finds the most recent active token of the
  user and either redirects to the provider end-session endpoint (marking the
  token logged out) or to a configured fallback.

External collaborators that live outside `views.py` (the `oauth2` / `oidc`
mixins performing network calls and JWT validation, the PKCE add-on function
loaded by dotted path, attribute transform functions) are modelled as explicit
function parameters bundled in environment structures: `views.py` only
branches on whether those calls return a usable value, which is all the
claims need.  Django ORM rows are modelled as records in an explicit `Db`
value; queryset `filter` keeps list order, `first` takes the head, and `last`
takes the row with the greatest primary key (Django orders by pk when no
ordering is declared).  Python raising an unhandled exception is modelled by
an `exception` result constructor; Python truthiness of strings and optional
strings is modelled explicitly (`""` and `None` are falsy).
-/

/-- Association-list lookup, modelling Python `d[k]` / `d.get(k)` on dicts
whose keys are unique (all dicts built here have unique keys). -/
def dictGet (d : List (String × String)) (k : String) : Option String :=
  (d.find? (fun p => decide (p.1 = k))).map (fun p => p.2)

/-- Python `dict.update`: keys already present are overwritten in place,
new keys are appended in the order of the update argument. -/
def dictUpdate (d upd : List (String × String)) : List (String × String) :=
  upd.foldl
    (fun acc kv =>
      if (dictGet acc kv.1).isSome then
        acc.map (fun p => if p.1 = kv.1 then kv else p)
      else acc ++ [kv])
    d

/-- Removal of a key, used to model the successful branch of `dict.pop`. -/
def dictRemove (d : List (String × String)) (k : String) :
    List (String × String) :=
  d.filter (fun p => decide (p.1 ≠ k))

/-- Python truthiness of an optional string: `None` and `""` are falsy. -/
def truthyOpt : Option String → Bool
  | some s => decide (s ≠ "")
  | none => false

/-- Python `a or b` for an optional string `a` with default `b`. -/
def pyOr (o : Option String) (dflt : String) : String :=
  match o with
  | some s => if s = "" then dflt else s
  | none => dflt

/-- Python `f-string` rendering of an optional string (`None` prints as
the four-letter word). -/
def pyStr : Option String → String
  | some s => s
  | none => "None"

/-- Django queryset `.last()`: with no declared ordering, Django orders by
primary key, so `.last()` returns the row with the greatest pk.  `idOf`
extracts the pk.  On ties the later list element wins (pks are unique in
any well-formed store, so ties do not arise there). -/
def qsLast {α : Type} (idOf : α → Nat) : List α → Option α
  | [] => none
  | x :: xs =>
      some (xs.foldl (fun acc g => if idOf acc ≤ idOf g then g else acc) x)

/-- Provider discovery metadata snapshot (`provider_configuration` column):
the fields `views.py` reads from it. -/
structure ProviderConf where
  authorization_endpoint : String
  token_endpoint : String
  end_session_endpoint : Option String
  deriving DecidableEq

/-- Row of `OidcAuthenticationRequest` (the pending flow).  `redirect_uri`
and `code_verifier` are the parsed form of the row's json `data` column
(`authz_data['redirect_uri']`, `authz_data.get('code_verifier')`);
`provider` is the parsed `provider_configuration` snapshot. -/
structure FlowRecord where
  id : Nat
  client_id : String
  state : String
  endpoint : String
  issuer : String
  issuer_id : String
  redirect_uri : String
  code_verifier : Option String
  provider : ProviderConf
  deriving DecidableEq

/-- Row of `OidcAuthenticationToken`.  `authzId` is the `authz_request`
foreign key, `user` the user foreign key, `loggedOut` the `logged_out`
timestamp column (None until rp-initiated logout fills it). -/
structure TokenRecord where
  id : Nat
  authzId : Nat
  code : Option String
  accessToken : Option String
  idToken : Option String
  scope : Option String
  tokenType : Option String
  expiresIn : Option Nat
  user : Option Nat
  loggedOut : Option String
  deriving DecidableEq

/-- Local identity row of the Django user model, with its concrete
columns abstracted to a string attribute dictionary. -/
structure LocalUser where
  id : Nat
  attrs : List (String × String)
  deriving DecidableEq

/-- The durable stores touched by the module: pending flows, issued tokens
and local users, each with the next primary key to assign. -/
structure Db where
  flows : List FlowRecord
  tokens : List TokenRecord
  users : List LocalUser
  nextFlowId : Nat
  nextTokenId : Nat
  nextUserId : Nat
  deriving DecidableEq

/-- Django `.save()` on a token row: replace the row with the same pk. -/
def saveToken (db : Db) (t : TokenRecord) : Db :=
  { db with tokens := db.tokens.map (fun x => if x.id = t.id then t else x) }

/-- An incoming GET request: its query parameters. -/
structure Request where
  params : List (String × String)

/-- `request.GET.get(k)`. -/
def reqGet (r : Request) (k : String) : Option String :=
  dictGet r.params k

/-- One candidate source of `user_attributes_map`: either a literal claim
name (a `str` entry) or a transform-function reference (a `dict` entry with
`func` and `kwargs`). -/
inductive Candidate where
  | claim (name : String)
  | transform (func : String) (kwargs : List (String × String))
  deriving DecidableEq

/-- Environment hook modelling `import_string(i['func'])(*args)`: given the
dotted path, the userinfo and the bound kwargs it returns the transform
value, or an error when the Python call raises.  (The source also passes
`client_conf` and `authz.__dict__` to the transform; a concrete environment
may close over them.) -/
abbrev TransformCall : Type :=
  String → List (String × String) → List (String × String) →
    Except String String

/-- The per-issuer client configuration fields the callback reads from
`settings.JWTCONN_RP_CLIENTS[issuer_id]`. -/
structure ClientConf where
  user_attributes_map : List (String × List Candidate)
  user_lookup_field : List String
  user_create : Bool
  login_redirect_url : Option String

/-- Inner loop of `AgidOidcRpCallbackView.process_user_attributes` for one
target field: try the candidates in order; a string candidate wins as soon
as its key is present in userinfo; a transform candidate wins when its call
returns a truthy value; a transform raising propagates the error. -/
def processField (call : TransformCall) (ui : List (String × String)) :
    List Candidate → Except String (Option String)
  | [] => .ok none
  | Candidate.claim name :: rest =>
      match dictGet ui name with
      | some v => .ok (some v)
      | none => processField call ui rest
  | Candidate.transform f kw :: rest =>
      match call f ui kw with
      | .error e => .error e
      | .ok v =>
          if v = "" then processField call ui rest else .ok (some v)

/-- `AgidOidcRpCallbackView.process_user_attributes`: builds the mapped
attribute dict field by field in map order; an error raised by any
transform aborts the whole computation. -/
def process_user_attributes (call : TransformCall)
    (ui : List (String × String)) :
    List (String × List Candidate) →
      Except String (List (String × String))
  | [] => .ok []
  | (k, cands) :: rest =>
      match processField call ui cands with
      | .error e => .error e
      | .ok none => process_user_attributes call ui rest
      | .ok (some v) =>
          (process_user_attributes call ui rest).map
            (fun d => (k, v) :: d)

/-- The condition under which the reunification loop body fires for a user:
the mapped attribute for `field` is present and truthy and equals the
corresponding column of `u`. -/
def lookupMatches (attrs : List (String × String)) (field : String)
    (u : LocalUser) : Bool :=
  match dictGet attrs field with
  | some v => decide (v ≠ "") && decide (dictGet u.attrs field = some v)
  | none => false

/-- The lookup loop of `user_reunification`: for each lookup field in order,
when the mapped value is present and truthy, `filter` the user store on it
and return `.first()` of a non-empty result. -/
def findMatch (users : List LocalUser) :
    List String → List (String × String) → Option LocalUser
  | [], _ => none
  | f :: fs, attrs =>
      match dictGet attrs f with
      | some v =>
          if v = "" then findMatch users fs attrs
          else
            match users.find?
                (fun u => decide (dictGet u.attrs f = some v)) with
            | some u => some u
            | none => findMatch users fs attrs
      | none => findMatch users fs attrs

/-- Attribute update applied to a matched user: every mapped attribute
except `username` is copied onto the user when the user has that column
(`hasattr`); unknown columns are skipped with a warning. -/
def updateUser (u : LocalUser) (user_attrs : List (String × String)) :
    LocalUser :=
  { u with
    attrs :=
      user_attrs.foldl
        (fun acc kv =>
          if kv.1 = "username" then acc
          else if (dictGet acc kv.1).isSome then
            acc.map (fun p => if p.1 = kv.1 then kv else p)
          else acc)
        u.attrs }

/-- `AgidOidcRpCallbackView.user_reunification`.  Returns the resolved user
(or none), the updated user store and the next user pk.  `createRaises`
models `user_model.objects.create` raising (for example on a constraint
violation), which the source catches and turns into a `None` return; when
`user_create` is falsy the function falls off the end and returns `None`. -/
def user_reunification (createRaises : Bool) (users : List LocalUser)
    (nextUserId : Nat) (user_attrs : List (String × String))
    (conf : ClientConf) : Option LocalUser × List LocalUser × Nat :=
  match findMatch users conf.user_lookup_field user_attrs with
  | some u =>
      let u2 := updateUser u user_attrs
      (some u2, users.map (fun x => if x.id = u.id then u2 else x),
       nextUserId)
  | none =>
      if conf.user_create then
        if createRaises then (none, users, nextUserId)
        else
          let u : LocalUser := { id := nextUserId, attrs := user_attrs }
          (some u, users ++ [u], nextUserId + 1)
      else (none, users, nextUserId)

/-- Token endpoint response dict, as read by the callback. -/
structure TokenResponse where
  access_token : String
  id_token : String
  scope : Option String
  token_type : String
  expires_in : Nat
  deriving DecidableEq

/-- External collaborators of the callback view.  `accessTokenRequest`
models `self.access_token_request` (the flow record carries the state,
redirect_uri, code_verifier and token-endpoint arguments the source passes);
`validateJwt` models `self.validate_jwt` against the flow's pinned keyjar;
`getUserinfo` models `self.get_userinfo`; `callTransform` the dynamic
transform import; `createRaises` whether user creation raises. -/
structure CallbackEnv where
  accessTokenRequest : FlowRecord → Option String → Option TokenResponse
  validateJwt : FlowRecord → String → Bool
  getUserinfo : FlowRecord → String → Option (List (String × String))
  callTransform : TransformCall
  createRaises : Bool

/-- Outcome of the callback view, one constructor per distinct response of
the source: the four `HttpResponseBadRequest` messages, `PermissionDenied`,
an unhandled Python exception, and the final redirect. -/
inductive CallbackResult where
  | unsolicited
  | tokenNotValid
  | idTokenInvalid
  | userinfoNotValid
  | permissionDenied (msg : String)
  | exception (e : String)
  | redirect (url : String)
  deriving DecidableEq

/-- The flow rows matching the callback's `state` parameter
(`OidcAuthenticationRequest.objects.filter(state=...)`; with no `state`
parameter the filter compares against null and matches nothing, since every
stored flow has a state). -/
def flowsMatching (db : Db) (req : Request) : List FlowRecord :=
  match reqGet req "state" with
  | none => []
  | some s => db.flows.filter (fun f => decide (f.state = s))

/-- `authz = filter(state=...).last()`: the matching flow row with the
greatest pk, if any. -/
def resolveFlow (db : Db) (req : Request) : Option FlowRecord :=
  qsLast FlowRecord.id (flowsMatching db req)

/-- Body of `AgidOidcRpCallbackView.get` after the flow has been resolved
(source lines 209-297).  `code` is `request.GET.get('code')`.  In order: a
token row holding the code is created; the token exchange runs (failure →
bad request, the token row stays); access-token JWT validation is performed
and its failure deliberately ignored (source lines 237-242); id_token
validation failure → bad request; the debug-only `decode_jwt` calls are
omitted; the token row is filled and saved; userinfo is fetched (failure →
bad request); the log line indexes `userinfo["sub"]`, raising `KeyError`
when absent; attributes are mapped (a transform raising propagates); an
empty mapping or a failed reunification raises `PermissionDenied`; else the
token row gets the user and the view redirects to the issuer-specific or
global login redirect. -/
def afterResolve (env : CallbackEnv) (conf : ClientConf)
    (loginRedirect : String) (db : Db) (code : Option String)
    (authz : FlowRecord) : CallbackResult × Db :=
  let tok : TokenRecord :=
    { id := db.nextTokenId, authzId := authz.id, code := code,
      accessToken := none, idToken := none, scope := none,
      tokenType := none, expiresIn := none, user := none,
      loggedOut := none }
  let db1 : Db :=
    { db with tokens := db.tokens ++ [tok],
              nextTokenId := db.nextTokenId + 1 }
  match env.accessTokenRequest authz code with
  | none => (.tokenNotValid, db1)
  | some tr =>
      if env.validateJwt authz tr.id_token then
        let tok2 : TokenRecord :=
          { tok with accessToken := some tr.access_token,
                     idToken := some tr.id_token, scope := tr.scope,
                     tokenType := some tr.token_type,
                     expiresIn := some tr.expires_in }
        let db2 := saveToken db1 tok2
        match env.getUserinfo authz tr.access_token with
        | none => (.userinfoNotValid, db2)
        | some userinfo =>
            match dictGet userinfo "sub" with
            | none => (.exception "KeyError", db2)
            | some _ =>
                match process_user_attributes env.callTransform userinfo
                    conf.user_attributes_map with
                | .error e => (.exception e, db2)
                | .ok user_attrs =>
                    if user_attrs.isEmpty then
                      (.permissionDenied
                        "No user attributes have been processed", db2)
                    else
                      match user_reunification env.createRaises db2.users
                          db2.nextUserId user_attrs conf with
                      | (none, users2, nid2) =>
                          (.permissionDenied "",
                           { db2 with users := users2,
                                      nextUserId := nid2 })
                      | (some u, users2, nid2) =>
                          let tok3 := { tok2 with user := some u.id }
                          (.redirect
                             (pyOr conf.login_redirect_url loginRedirect),
                           saveToken
                             { db2 with users := users2,
                                        nextUserId := nid2 } tok3)
      else (.idTokenInvalid, db1)

/-- `AgidOidcRpCallbackView.get`: resolve the pending flow by the `state`
query parameter; no match → bad request "Unsolicited response" with nothing
created; otherwise continue with the most recent matching flow.
`loginRedirect` is `settings.LOGIN_REDIRECT_URL`. -/
def callbackGet (env : CallbackEnv) (conf : ClientConf)
    (loginRedirect : String) (db : Db) (req : Request) :
    CallbackResult × Db :=
  match resolveFlow db req with
  | none => (.unsolicited, db)
  | some authz =>
      afterResolve env conf loginRedirect db (reqGet req "code") authz

/-- The active (not yet logged-out) tokens of a user:
`filter(user=...).filter(Q(logged_out__iexact='') | Q(logged_out__isnull=True))`. -/
def activeTokens (db : Db) (uid : Nat) : List TokenRecord :=
  db.tokens.filter
    (fun t =>
      decide (t.user = some uid) &&
      (decide (t.loggedOut = some "") || decide (t.loggedOut = none)))

/-- Foreign-key dereference `token.authz_request`. -/
def findFlow (db : Db) (fid : Nat) : Option FlowRecord :=
  db.flows.find? (fun f => decide (f.id = fid))

/-- Fallback target of the logout view:
`settings.LOGOUT_REDIRECT_URL` when truthy, else the root path. -/
def fallbackUrl (logoutRedirect : Option String) : String :=
  match logoutRedirect with
  | some s => if s = "" then "/" else s
  | none => "/"

/-- Outcome of the logout view: a redirect, or an unhandled Python
exception. -/
inductive LogoutResult where
  | redirect (url : String)
  | exception (e : String)
  deriving DecidableEq

/-- `oidc_rpinitiated_logout`.  `logoutRedirect` is
`settings.LOGOUT_REDIRECT_URL`.  `auth_tokens.last()` on an empty queryset
is `None`, so the subsequent `.authz_request` attribute access raises
`AttributeError`; a broken foreign key would raise on dereference.  The
Django session `logout(request)` touches no ledger state and is omitted.
With no truthy end-session endpoint the view redirects to the fallback and
returns, leaving the token rows untouched; otherwise it builds the
end-session URL from the id_token hint and optional post-logout redirect,
stamps `logged_out` on the token and saves it. -/
def oidc_rpinitiated_logout (logoutRedirect : Option String) (db : Db)
    (uid : Nat) (now : String) : LogoutResult × Db :=
  match qsLast TokenRecord.id (activeTokens db uid) with
  | none => (.exception "AttributeError", db)
  | some tok =>
      match findFlow db tok.authzId with
      | none => (.exception "DoesNotExist", db)
      | some authz =>
          if truthyOpt authz.provider.end_session_endpoint then
            let url0 :=
              (authz.provider.end_session_endpoint.getD "") ++
                "?id_token_hint=" ++ pyStr tok.idToken
            let url :=
              match logoutRedirect with
              | some s =>
                  if s = "" then url0
                  else url0 ++ "&post_logout_redirect_uri=" ++ s
              | none => url0
            (.redirect url, saveToken db { tok with loggedOut := some now })
          else (.redirect (fallbackUrl logoutRedirect), db)

/-- The `add_ons.pkce` entry of a client configuration: the dotted path of
the PKCE function and its bound kwargs. -/
structure PkceAddOn where
  function : String
  kwargs : List (String × String)

/-- The client configuration fields the begin view reads. -/
structure BeginClientConf where
  client_id : String
  redirect_uris : List String
  scope : List String
  response_types : List String
  pkce : Option PkceAddOn

/-- External collaborators of the begin view: provider discovery and JWKS
fetch (each `none` when the wrapped call raises), the resolved PKCE
function, and the two `random_string` draws for nonce and state. -/
structure BeginEnv where
  providerDiscovery : Option ProviderConf
  jwks : Option (List (String × String))
  pkceFunc : String → List (String × String) → List (String × String)
  nonce : String
  state : String

/-- Outcome of the begin view. -/
inductive BeginResult where
  | badRequest (msg : String)
  | redirect (url : String)
  | exception (e : String)
  deriving DecidableEq

/-- `utils.http_dict_to_redirect_uri_path`: the query string built from the
authorization-request dict. -/
def encodeParams (d : List (String × String)) : String :=
  String.intercalate "&" (d.map (fun p => p.1 ++ "=" ++ p.2))

/-- `AgidOidcRpBeginView.get` after issuer resolution (source lines
67-125).  Discovery or JWKS failure → bad request.  The authorization data
dict is built, PKCE values are merged in when the add-on is configured, and
the flow row — including the code_verifier, which is serialized before the
pop — is created.  Then `authz_data.pop('code_verifier')` runs with no
default: when the key is absent (no PKCE add-on) Python raises `KeyError`
after the row was already created; otherwise the view redirects to the
authorization endpoint with the remaining parameters. -/
def beginGet (env : BeginEnv) (conf : BeginClientConf)
    (issuer_id issuer_fqdn : String) (db : Db) : BeginResult × Db :=
  match env.providerDiscovery with
  | none =>
      (.badRequest ("Failed to get provider discovery from " ++ issuer_fqdn),
       db)
  | some provider_conf =>
      match env.jwks with
      | none => (.badRequest ("Failed to get jwks from " ++ issuer_fqdn), db)
      | some _jwks_dict =>
          let authz_endpoint := provider_conf.authorization_endpoint
          let base : List (String × String) :=
            [("scope", String.intercalate " " conf.scope),
             ("redirect_uri", conf.redirect_uris.headD ""),
             ("response_type", conf.response_types.headD ""),
             ("nonce", env.nonce),
             ("state", env.state),
             ("client_id", conf.client_id),
             ("endpoint", authz_endpoint)]
          let authz_data :=
            match conf.pkce with
            | some addon =>
                dictUpdate base (env.pkceFunc addon.function addon.kwargs)
            | none => base
          let flow : FlowRecord :=
            { id := db.nextFlowId, client_id := conf.client_id,
              state := env.state, endpoint := authz_endpoint,
              issuer := issuer_fqdn, issuer_id := issuer_id,
              redirect_uri := (dictGet authz_data "redirect_uri").getD "",
              code_verifier := dictGet authz_data "code_verifier",
              provider := provider_conf }
          let db1 : Db :=
            { db with flows := db.flows ++ [flow],
                      nextFlowId := db.nextFlowId + 1 }
          match dictGet authz_data "code_verifier" with
          | none => (.exception "KeyError", db1)
          | some _ =>
              let pruned := dictRemove authz_data "code_verifier"
              (.redirect (authz_endpoint ++ "?" ++ encodeParams pruned), db1)

/-! ### Concrete fixtures used by the per-claim counterexamples and
witnesses.  Each claim has its own fixtures. -/

/-- Provider snapshot used by the replay scenario. -/
def c1Provider : ProviderConf :=
  { authorization_endpoint := "https://idp.example/auth",
    token_endpoint := "https://idp.example/token",
    end_session_endpoint := some "https://idp.example/end" }

def c1Flow : FlowRecord :=
  { id := 1, client_id := "rp1", state := "S1",
    endpoint := "https://idp.example/auth", issuer := "https://idp.example",
    issuer_id := "agid_login", redirect_uri := "https://rp.example/cb",
    code_verifier := none, provider := c1Provider }

def c1Db : Db :=
  { flows := [c1Flow], tokens := [], users := [],
    nextFlowId := 2, nextTokenId := 1, nextUserId := 1 }

def c1Tr : TokenResponse :=
  { access_token := "AT1", id_token := "IDT1", scope := some "openid",
    token_type := "Bearer", expires_in := 3600 }

/-- Environment under which the first callback completes end to end: the
exchange succeeds whenever a code is present, validation passes and
userinfo is served. -/
def c1Env : CallbackEnv :=
  { accessTokenRequest := fun _ c =>
      match c with
      | some _ => some c1Tr
      | none => none,
    validateJwt := fun _ _ => true,
    getUserinfo := fun _ _ => some [("sub", "u1"), ("email", "a@b.it")],
    callTransform := fun _ _ _ => .error "unused",
    createRaises := false }

def c1Conf : ClientConf :=
  { user_attributes_map :=
      [("email", [Candidate.claim "email"]),
       ("username", [Candidate.claim "sub"])],
    user_lookup_field := ["email"],
    user_create := true,
    login_redirect_url := some "/home" }

def c1Req : Request := { params := [("state", "S1"), ("code", "C0DE")] }

def c2Provider : ProviderConf :=
  { authorization_endpoint := "https://idp.example/auth",
    token_endpoint := "https://idp.example/token",
    end_session_endpoint := none }

def c2Flow : FlowRecord :=
  { id := 1, client_id := "rp1", state := "S2",
    endpoint := "https://idp.example/auth", issuer := "https://idp.example",
    issuer_id := "agid_login", redirect_uri := "https://rp.example/cb",
    code_verifier := none, provider := c2Provider }

/-- An active issued token of user 7 whose flow advertises no end-session
endpoint. -/
def c2Tok : TokenRecord :=
  { id := 1, authzId := 1, code := some "C1", accessToken := some "AT",
    idToken := some "IDT", scope := some "openid",
    tokenType := some "Bearer", expiresIn := some 3600, user := some 7,
    loggedOut := none }

def c2Db : Db :=
  { flows := [c2Flow], tokens := [c2Tok], users := [],
    nextFlowId := 2, nextTokenId := 2, nextUserId := 1 }

/-- Transform environment whose `boom.transform` call raises. -/
def c3Call : TransformCall := fun f _ _ =>
  if f = "boom.transform" then .error "boom" else .ok ""

def c3Ui : List (String × String) := [("sub", "u1"), ("email", "a@b.it")]

/-- One target field whose first candidate is the raising transform and
whose second candidate is a claim present in userinfo. -/
def c3Map : List (String × List Candidate) :=
  [("mail_target",
    [Candidate.transform "boom.transform" [], Candidate.claim "email"])]

def c3Conf : ClientConf :=
  { user_attributes_map := c3Map,
    user_lookup_field := ["mail_target"],
    user_create := true,
    login_redirect_url := some "/home" }

def c3Env : CallbackEnv :=
  { accessTokenRequest := fun _ _ => some c1Tr,
    validateJwt := fun _ _ => true,
    getUserinfo := fun _ _ => some c3Ui,
    callTransform := c3Call,
    createRaises := false }

def c3Flow : FlowRecord :=
  { id := 1, client_id := "rp1", state := "S3",
    endpoint := "https://idp.example/auth", issuer := "https://idp.example",
    issuer_id := "agid_login", redirect_uri := "https://rp.example/cb",
    code_verifier := none, provider := c1Provider }

def c3Db : Db :=
  { flows := [c3Flow], tokens := [], users := [],
    nextFlowId := 2, nextTokenId := 1, nextUserId := 1 }

def c3Req : Request := { params := [("state", "S3"), ("code", "C3")] }

/-- Environment whose token exchange fails exactly when no code is
present, as a real token endpoint does on a missing code. -/
def c4Env : CallbackEnv :=
  { accessTokenRequest := fun _ c =>
      match c with
      | some _ => some c1Tr
      | none => none,
    validateJwt := fun _ _ => true,
    getUserinfo := fun _ _ => some [("sub", "u1")],
    callTransform := fun _ _ _ => .error "unused",
    createRaises := false }

def c4Conf : ClientConf :=
  { user_attributes_map := [("username", [Candidate.claim "sub"])],
    user_lookup_field := ["username"],
    user_create := true,
    login_redirect_url := none }

def c4Flow : FlowRecord :=
  { id := 1, client_id := "rp1", state := "S4",
    endpoint := "https://idp.example/auth", issuer := "https://idp.example",
    issuer_id := "agid_login", redirect_uri := "https://rp.example/cb",
    code_verifier := none, provider := c1Provider }

def c4Db : Db :=
  { flows := [c4Flow], tokens := [], users := [],
    nextFlowId := 2, nextTokenId := 1, nextUserId := 1 }

/-- An OAuth2 error-response callback: `error`/`error_description` and no
`code`, with a `state` that does match a pending flow. -/
def c4ReqErr : Request :=
  { params := [("state", "S4"), ("error", "access_denied"),
               ("error_description", "User denied access")] }

/-- The same error response with a `state` matching no pending flow. -/
def c4ReqErrNoFlow : Request :=
  { params := [("state", "UNKNOWN"), ("error", "access_denied"),
               ("error_description", "User denied access")] }

def c5Env : BeginEnv :=
  { providerDiscovery := some c1Provider,
    jwks := some [("kid1", "key1")],
    pkceFunc := fun _ _ =>
      [("code_verifier", "ver1"), ("code_challenge", "chal1"),
       ("code_challenge_method", "S256")],
    nonce := "N5N5N5N5N5N5N5N5N5N5N5N5",
    state := "S5S5S5S5S5S5S5S5S5S5S5S5S5S5S5S5" }

/-- A client configuration with no PKCE add-on. -/
def c5Conf : BeginClientConf :=
  { client_id := "rp1", redirect_uris := ["https://rp.example/cb"],
    scope := ["openid", "profile"], response_types := ["code"],
    pkce := none }

def c5Db : Db :=
  { flows := [], tokens := [], users := [],
    nextFlowId := 1, nextTokenId := 1, nextUserId := 1 }

/-- A store in which user 7 has one token, already logged out: the active
filter of the logout view matches nothing. -/
def c6Db : Db :=
  { flows := [c2Flow],
    tokens := [{ c2Tok with loggedOut := some "2026-01-01T00:00:00" }],
    users := [],
    nextFlowId := 2, nextTokenId := 2, nextUserId := 1 }

def c7Env : CallbackEnv := c4Env

def c7Conf : ClientConf := c4Conf

def c7Req : Request := { params := [("state", "S7"), ("code", "C7")] }

/-- A store with no flow matching state S7. -/
def c7Db0 : Db :=
  { flows := [c4Flow], tokens := [], users := [],
    nextFlowId := 2, nextTokenId := 1, nextUserId := 1 }

def c7FlowB : FlowRecord :=
  { id := 1, client_id := "rp1", state := "S7",
    endpoint := "https://idp.example/auth", issuer := "https://idp.example",
    issuer_id := "agid_login", redirect_uri := "https://rp.example/cb",
    code_verifier := none, provider := c1Provider }

def c7FlowA : FlowRecord := { c7FlowB with id := 2 }

/-- A store in which two pending flows share the state S7 (the
data-integrity case the spec mentions); ids grow with creation order. -/
def c7DbTwo : Db :=
  { flows := [c7FlowB, c7FlowA], tokens := [], users := [],
    nextFlowId := 3, nextTokenId := 1, nextUserId := 1 }

def c8Call : TransformCall := fun _ _ _ => .ok ""

/-- Userinfo in which the first candidate claim is present with an empty
value and the second is present with a non-empty one. -/
def c8Ui : List (String × String) := [("mail", ""), ("email", "a@b.it")]

def c8Map : List (String × List Candidate) :=
  [("email", [Candidate.claim "mail", Candidate.claim "email"])]

/-- Userinfo with both candidate claims present and non-empty. -/
def c8WUi : List (String × String) :=
  [("mail", "x@y.it"), ("email", "a@b.it")]

def c9Users : List LocalUser :=
  [{ id := 1, attrs := [("email", "other@x.it"), ("username", "u0")] }]

def c9Attrs : List (String × String) := [("email", "a@b.it")]

/-- Lookup on email only, creation disallowed. -/
def c9Conf : ClientConf :=
  { user_attributes_map := [("email", [Candidate.claim "email"])],
    user_lookup_field := ["email"],
    user_create := false,
    login_redirect_url := none }

/-- Environment whose token exchange always fails. -/
def c10Env : CallbackEnv :=
  { accessTokenRequest := fun _ _ => none,
    validateJwt := fun _ _ => true,
    getUserinfo := fun _ _ => some [("sub", "u1")],
    callTransform := fun _ _ _ => .error "unused",
    createRaises := false }

def c10Conf : ClientConf := c4Conf

def c10Flow : FlowRecord :=
  { id := 1, client_id := "rp1", state := "S10",
    endpoint := "https://idp.example/auth", issuer := "https://idp.example",
    issuer_id := "agid_login", redirect_uri := "https://rp.example/cb",
    code_verifier := none, provider := c1Provider }

def c10Db : Db :=
  { flows := [c10Flow], tokens := [], users := [],
    nextFlowId := 2, nextTokenId := 1, nextUserId := 1 }

def c10Req : Request := { params := [("state", "S10"), ("code", "C10")] }

/-- A plain success-style callback carrying the same state and code keys as
`c4ReqErr` would, used to witness that error parameters are ignored. -/
def c4ReqPlain : Request := { params := [("state", "S4")] }

/-! ### Helper lemmas -/

/-- Saving a token row leaves the flow store untouched. -/
theorem saveToken_flows (db : Db) (t : TokenRecord) :
    (saveToken db t).flows = db.flows := rfl

/-- The fold inside `qsLast` returns the start element or a list element,
and its pk bounds the start element and every list element. -/
theorem qsFold_spec {α : Type} (idOf : α → Nat) (xs : List α) :
    ∀ a : α,
      ((xs.foldl (fun acc g => if idOf acc ≤ idOf g then g else acc) a) = a ∨
        (xs.foldl (fun acc g => if idOf acc ≤ idOf g then g else acc) a)
          ∈ xs) ∧
      idOf a ≤
        idOf (xs.foldl (fun acc g => if idOf acc ≤ idOf g then g else acc) a) ∧
      ∀ g ∈ xs,
        idOf g ≤
          idOf (xs.foldl (fun acc g => if idOf acc ≤ idOf g then g else acc) a) := by
  induction xs with
  | nil => intro a; simp
  | cons x xs ih =>
      intro a
      simp only [List.foldl_cons]
      by_cases hc : idOf a ≤ idOf x
      · simp only [if_pos hc]
        obtain ⟨h1, h2, h3⟩ := ih x
        refine ⟨?_, le_trans hc h2, ?_⟩
        · cases h1 with
          | inl h => exact Or.inr (by simp [h])
          | inr h => exact Or.inr (List.mem_cons_of_mem _ h)
        · intro g hg
          cases List.mem_cons.mp hg with
          | inl h => subst h; exact h2
          | inr h => exact h3 g h
      · simp only [if_neg hc]
        obtain ⟨h1, h2, h3⟩ := ih a
        push_neg at hc
        refine ⟨?_, h2, ?_⟩
        · cases h1 with
          | inl h => exact Or.inl h
          | inr h => exact Or.inr (List.mem_cons_of_mem _ h)
        · intro g hg
          cases List.mem_cons.mp hg with
          | inl h => subst h; exact le_trans (le_of_lt hc) h2
          | inr h => exact h3 g h

/-- `qsLast` returns a member of the list whose pk dominates every
member: exactly the row Django `.last()` picks. -/
theorem qsLast_mem_max {α : Type} (idOf : α → Nat) (l : List α) (f : α)
    (h : qsLast idOf l = some f) : f ∈ l ∧ ∀ g ∈ l, idOf g ≤ idOf f := by
  cases l with
  | nil => simp [qsLast] at h
  | cons x xs =>
      simp only [qsLast, Option.some.injEq] at h
      obtain ⟨h1, h2, h3⟩ := qsFold_spec idOf xs x
      rw [h] at h1 h2 h3
      constructor
      · cases h1 with
        | inl hx => rw [hx]; exact List.mem_cons_self x xs
        | inr hx => exact List.mem_cons_of_mem _ hx
      · intro g hg
        cases List.mem_cons.mp hg with
        | inl hx => subst hx; exact h2
        | inr hx => exact h3 g hx

/-- After the flow has been resolved, the remainder of the callback never
touches the flow store and never produces the unsolicited rejection. -/
theorem afterResolve_spec (env : CallbackEnv) (conf : ClientConf)
    (lr : String) (db : Db) (code : Option String) (authz : FlowRecord) :
    (afterResolve env conf lr db code authz).2.flows = db.flows ∧
    (afterResolve env conf lr db code authz).1 ≠
      CallbackResult.unsolicited := by
  simp only [afterResolve]
  repeat' split
  all_goals simp [saveToken]

/-- The lookup loop of `user_reunification` finds nobody when no lookup
field has a present, truthy attribute value matching an existing user. -/
theorem findMatch_eq_none (users : List LocalUser) (fields : List String)
    (attrs : List (String × String))
    (h : ∀ field ∈ fields, ∀ u ∈ users,
      lookupMatches attrs field u = false) :
    findMatch users fields attrs = none := by
  induction fields with
  | nil => rfl
  | cons f fs ih =>
      have hf := h f (List.mem_cons_self f fs)
      have hrest : ∀ field ∈ fs, ∀ u ∈ users,
          lookupMatches attrs field u = false :=
        fun field hm => h field (List.mem_cons_of_mem f hm)
      unfold findMatch
      cases hd : dictGet attrs f with
      | none => exact ih hrest
      | some v =>
          by_cases hv : v = ""
          · simp [hv, ih hrest]
          · have hfind : List.find?
                (fun u => decide (dictGet u.attrs f = some v)) users =
                  none := by
              rw [List.find?_eq_none]
              intro u hu
              have hb := hf u hu
              unfold lookupMatches at hb
              rw [hd] at hb
              rcases Bool.and_eq_false_iff.mp hb with h1 | h2
              · exact absurd hv (by simpa using h1)
              · simpa using h2
            simp [hv, hfind, ih hrest]

/-! ### Claim theorems -/

/-- Claim C1, counterexample.  A first callback for state S1 completes the
whole flow (token exchange included) and ends in the final redirect; the
flow store is unchanged by it, and replaying the identical callback is not
rejected as an unsolicited response — the pending flow was neither deleted
nor marked consumed. -/
theorem c1_replay_counterexample :
    (callbackGet c1Env c1Conf "/dflt" c1Db c1Req).1 =
      CallbackResult.redirect "/home" ∧
    (callbackGet c1Env c1Conf "/dflt" c1Db c1Req).2.flows = c1Db.flows ∧
    (callbackGet c1Env c1Conf "/dflt"
        (callbackGet c1Env c1Conf "/dflt" c1Db c1Req).2 c1Req).1 ≠
      CallbackResult.unsolicited := by
  decide

/-- Claim C1, amended.  The callback never deletes or modifies a pending
flow record, and it is rejected as an unsolicited response exactly when its
state matches no stored flow; in particular a second callback with the same
state is looked up again and processed instead of being rejected. -/
theorem c1_flow_not_consumed (env : CallbackEnv) (conf : ClientConf)
    (lr : String) (db : Db) (req : Request) :
    (callbackGet env conf lr db req).2.flows = db.flows ∧
    ((callbackGet env conf lr db req).1 = CallbackResult.unsolicited ↔
      resolveFlow db req = none) := by
  unfold callbackGet
  cases h : resolveFlow db req with
  | none => simp
  | some authz =>
      obtain ⟨h1, h2⟩ :=
        afterResolve_spec env conf lr db (reqGet req "code") authz
      simp [h1, h2]

/-- Claim C2, counterexample.  User 7 has an active token whose provider
snapshot advertises no end-session endpoint; logout redirects to the
configured fallback but returns the store unchanged: the token is still
not marked logged out. -/
theorem c2_counterexample :
    oidc_rpinitiated_logout (some "/bye") c2Db 7 "2026-01-01T00:00:00" =
      (LogoutResult.redirect "/bye", c2Db) ∧
    (oidc_rpinitiated_logout (some "/bye") c2Db 7
        "2026-01-01T00:00:00").2.tokens.map TokenRecord.loggedOut =
      [none] := by
  decide

/-- Claim C2, amended.  When the most recent active token of the user
belongs to a flow whose provider snapshot advertises no truthy end-session
endpoint, logout redirects to the configured fallback and leaves every
store untouched: in particular the token is not marked logged out. -/
theorem c2_logout_fallback_skips_stamp (lrUrl : Option String) (db : Db)
    (uid : Nat) (now : String) (tok : TokenRecord) (authz : FlowRecord)
    (h1 : qsLast TokenRecord.id (activeTokens db uid) = some tok)
    (h2 : findFlow db tok.authzId = some authz)
    (h3 : truthyOpt authz.provider.end_session_endpoint = false) :
    oidc_rpinitiated_logout lrUrl db uid now =
      (LogoutResult.redirect (fallbackUrl lrUrl), db) := by
  simp [oidc_rpinitiated_logout, h1, h2, h3]

/-- Witness for the amended claim C2 at the concrete store `c2Db`. -/
theorem c2_witness :
    qsLast TokenRecord.id (activeTokens c2Db 7) = some c2Tok ∧
    findFlow c2Db c2Tok.authzId = some c2Flow ∧
    truthyOpt c2Flow.provider.end_session_endpoint = false ∧
    oidc_rpinitiated_logout (some "/bye") c2Db 7 "2026-01-01T00:00:00" =
      (LogoutResult.redirect "/bye", c2Db) :=
  ⟨rfl, rfl, rfl, by
    have := c2_logout_fallback_skips_stamp (some "/bye") c2Db 7
      "2026-01-01T00:00:00" c2Tok c2Flow rfl rfl rfl
    simpa [fallbackUrl] using this⟩

/-- Claim C3, counterexample.  A transform-function candidate that raises
aborts the attribute mapping with the raised error even though the next
candidate in the list would have yielded a value, and the whole callback
flow aborts with that error. -/
theorem c3_counterexample :
    process_user_attributes c3Call c3Ui c3Map = Except.error "boom" ∧
    dictGet c3Ui "email" = some "a@b.it" ∧
    (callbackGet c3Env c3Conf "/dflt" c3Db c3Req).1 =
      CallbackResult.exception "boom" :=
  ⟨rfl, rfl, rfl⟩

/-- Claim C3, amended.  A transform candidate whose call raises propagates
the raised error: the next candidate is not tried and the whole
attribute-mapping step fails with that error, aborting the callback. -/
theorem c3_transform_error_propagates (call : TransformCall)
    (ui : List (String × String)) (k f : String)
    (kw : List (String × String)) (rest : List Candidate)
    (restMap : List (String × List Candidate)) (e : String)
    (h : call f ui kw = Except.error e) :
    processField call ui (Candidate.transform f kw :: rest) =
      Except.error e ∧
    process_user_attributes call ui
        ((k, Candidate.transform f kw :: rest) :: restMap) =
      Except.error e := by
  constructor
  · simp [processField, h]
  · simp [process_user_attributes, processField, h]

/-- Witness for the amended claim C3 at the raising transform `c3Call`. -/
theorem c3_witness :
    c3Call "boom.transform" c3Ui [] = Except.error "boom" ∧
    process_user_attributes c3Call c3Ui c3Map = Except.error "boom" :=
  ⟨rfl,
   (c3_transform_error_propagates c3Call c3Ui "mail_target"
     "boom.transform" [] [Candidate.claim "email"] [] "boom" rfl).2⟩

/-- Claim C4, counterexample.  An error-response callback (carrying
`error` and `error_description`, no `code`) whose state matches a pending
flow is not surfaced as an authorization denial: a token row with an empty
code is created and the token exchange is attempted, failing as a bad
token; with a state matching no flow the same error response is treated
exactly as the missing-flow case. -/
theorem c4_counterexample :
    reqGet c4ReqErr "error" = some "access_denied" ∧
    reqGet c4ReqErr "code" = none ∧
    (callbackGet c4Env c4Conf "/dflt" c4Db c4ReqErr).1 =
      CallbackResult.tokenNotValid ∧
    (callbackGet c4Env c4Conf "/dflt" c4Db c4ReqErr).2.tokens.map
        TokenRecord.code = [none] ∧
    (callbackGet c4Env c4Conf "/dflt" c4Db c4ReqErrNoFlow).1 =
      CallbackResult.unsolicited :=
  ⟨rfl, rfl, rfl, rfl, rfl⟩

/-- Claim C4, amended.  The callback handler never inspects the `error` or
`error_description` parameters: its outcome depends on the request only
through the `state` and `code` parameters, so an error-response callback is
handled like any other — missing-flow rejection for an unknown state, or a
token exchange attempted with an absent code. -/
theorem c4_error_params_ignored (env : CallbackEnv) (conf : ClientConf)
    (lr : String) (db : Db) (req req2 : Request)
    (hs : reqGet req "state" = reqGet req2 "state")
    (hc : reqGet req "code" = reqGet req2 "code") :
    callbackGet env conf lr db req = callbackGet env conf lr db req2 := by
  unfold callbackGet resolveFlow flowsMatching
  rw [hs, hc]

/-- Witness for the amended claim C4: the error-response request and the
bare request with the same state and code are handled identically. -/
theorem c4_witness :
    reqGet c4ReqErr "state" = reqGet c4ReqPlain "state" ∧
    reqGet c4ReqErr "code" = reqGet c4ReqPlain "code" ∧
    callbackGet c4Env c4Conf "/dflt" c4Db c4ReqErr =
      callbackGet c4Env c4Conf "/dflt" c4Db c4ReqPlain :=
  ⟨rfl, rfl,
   c4_error_params_ignored c4Env c4Conf "/dflt" c4Db c4ReqErr c4ReqPlain
     rfl rfl⟩

/-- Claim C5.  With no PKCE add-on configured the begin view does not
complete: `authz_data.pop` runs with no default on a dict that never
received a `code_verifier` key, so the view raises `KeyError` — after
having already created the flow record. -/
theorem c5_begin_keyerror_without_pkce :
    c5Conf.pkce = none ∧
    (beginGet c5Env c5Conf "agid_login" "https://idp.example" c5Db).1 =
      BeginResult.exception "KeyError" ∧
    (beginGet c5Env c5Conf "agid_login" "https://idp.example"
        c5Db).2.flows.length = 1 :=
  ⟨rfl, rfl, rfl⟩

/-- Claim C6.  A logged-in user with no active (not yet logged-out) token:
the queryset is empty, `.last()` is `None`, and the attribute access
`.authz_request` raises `AttributeError` instead of producing a
client-error response. -/
theorem c6_logout_crashes_without_active_token :
    activeTokens c6Db 7 = [] ∧
    oidc_rpinitiated_logout (some "/bye") c6Db 7 "2026-01-02T00:00:00" =
      (LogoutResult.exception "AttributeError", c6Db) :=
  ⟨rfl, rfl⟩

/-- Claim C7.  A callback whose state matches no pending flow is answered
with the unsolicited-response rejection and the store is returned
unchanged — no token row is created, nothing is modified; and whenever the
lookup resolves a flow, that flow is a matching one whose pk dominates
every matching flow, i.e. the most recently created match. -/
theorem c7_unsolicited_and_most_recent (env : CallbackEnv)
    (conf : ClientConf) (lr : String) (db : Db) (req : Request) :
    (resolveFlow db req = none →
      callbackGet env conf lr db req = (CallbackResult.unsolicited, db)) ∧
    (∀ f, resolveFlow db req = some f →
      f ∈ flowsMatching db req ∧
        ∀ g ∈ flowsMatching db req, g.id ≤ f.id) := by
  constructor
  · intro h; simp [callbackGet, h]
  · intro f hf
    exact qsLast_mem_max FlowRecord.id (flowsMatching db req) f hf

/-- Witness for claim C7: a store with no matching flow is rejected
unchanged, and with two flows sharing state S7 the resolved one is the one
with the greater pk. -/
theorem c7_witness :
    callbackGet c7Env c7Conf "/dflt" c7Db0 c7Req =
      (CallbackResult.unsolicited, c7Db0) ∧
    resolveFlow c7DbTwo c7Req = some c7FlowA ∧
    c7FlowA ∈ flowsMatching c7DbTwo c7Req ∧
    c7FlowB.id ≤ c7FlowA.id :=
  ⟨(c7_unsolicited_and_most_recent c7Env c7Conf "/dflt" c7Db0 c7Req).1 rfl,
   rfl,
   ((c7_unsolicited_and_most_recent c7Env c7Conf "/dflt" c7DbTwo c7Req).2
     c7FlowA rfl).1,
   ((c7_unsolicited_and_most_recent c7Env c7Conf "/dflt" c7DbTwo c7Req).2
     c7FlowA rfl).2 c7FlowB (by decide)⟩

/-- Claim C8, counterexample.  With candidates mail then email, a userinfo
in which mail is present with the empty value and email with a non-empty
one: the mapper stops at mail and outputs the empty value, not the first
non-empty value. -/
theorem c8_counterexample :
    process_user_attributes c8Call c8Ui c8Map =
      Except.ok [("email", "")] ∧
    dictGet c8Ui "email" = some "a@b.it" ∧
    ("" : String) ≠ "a@b.it" :=
  ⟨rfl, rfl, by decide⟩

/-- Claim C8, amended.  For string candidates the mapper stops at the
first candidate whose claim key is present in userinfo — whatever its
value, the empty string included; in particular with candidates mail then
email and both present, the value of mail is used. -/
theorem c8_first_present_candidate_wins (call : TransformCall)
    (ui : List (String × String)) (k name v : String)
    (rest : List Candidate)
    (h : dictGet ui name = some v) :
    process_user_attributes call ui [(k, Candidate.claim name :: rest)] =
      Except.ok [(k, v)] := by
  simp [process_user_attributes, processField, h, Except.map]

/-- Witness for the amended claim C8: with both mail and email present and
non-empty, the first candidate mail wins. -/
theorem c8_witness :
    dictGet c8WUi "mail" = some "x@y.it" ∧
    process_user_attributes c8Call c8WUi
        [("email", [Candidate.claim "mail", Candidate.claim "email"])] =
      Except.ok [("email", "x@y.it")] :=
  ⟨rfl,
   c8_first_present_candidate_wins c8Call c8WUi "email" "mail" "x@y.it"
     [Candidate.claim "email"] rfl⟩

/-- Claim C9.  When no lookup field carries a present, truthy attribute
value matching an existing user and creation is disallowed, reunification
yields no user and both the user store and the next pk are returned
unchanged: nothing is created. -/
theorem c9_no_match_no_create (createRaises : Bool)
    (users : List LocalUser) (nid : Nat)
    (attrs : List (String × String)) (conf : ClientConf)
    (hnc : conf.user_create = false)
    (hnm : ∀ field ∈ conf.user_lookup_field, ∀ u ∈ users,
      lookupMatches attrs field u = false) :
    user_reunification createRaises users nid attrs conf =
      (none, users, nid) := by
  unfold user_reunification
  rw [findMatch_eq_none users conf.user_lookup_field attrs hnm, hnc]
  simp

/-- Witness for claim C9 at a store whose only user does not match the
mapped email. -/
theorem c9_witness :
    c9Conf.user_create = false ∧
    user_reunification false c9Users 2 c9Attrs c9Conf =
      (none, c9Users, 2) :=
  ⟨rfl,
   c9_no_match_no_create false c9Users 2 c9Attrs c9Conf rfl (by decide)⟩

/-- Claim C10.  Whenever the state matches a pending flow, a token row
holding the callback code is created before the exchange; if the exchange
fails, the callback is rejected as a bad token and the final store is the
initial one plus exactly that row, its token fields still unset. -/
theorem c10_token_persisted_on_failed_exchange (env : CallbackEnv)
    (conf : ClientConf) (lr : String) (db : Db) (req : Request)
    (authz : FlowRecord)
    (hres : resolveFlow db req = some authz)
    (hx : env.accessTokenRequest authz (reqGet req "code") = none) :
    callbackGet env conf lr db req =
      (CallbackResult.tokenNotValid,
       { db with
           tokens := db.tokens ++
             [{ id := db.nextTokenId, authzId := authz.id,
                code := reqGet req "code", accessToken := none,
                idToken := none, scope := none, tokenType := none,
                expiresIn := none, user := none, loggedOut := none }],
           nextTokenId := db.nextTokenId + 1 }) := by
  simp [callbackGet, hres, afterResolve, hx]

/-- Witness for claim C10 at a store with one pending flow and an
exchange that fails. -/
theorem c10_witness :
    resolveFlow c10Db c10Req = some c10Flow ∧
    c10Env.accessTokenRequest c10Flow (reqGet c10Req "code") = none ∧
    callbackGet c10Env c10Conf "/dflt" c10Db c10Req =
      (CallbackResult.tokenNotValid,
       { c10Db with
           tokens := [{ id := 1, authzId := 1, code := some "C10",
                        accessToken := none, idToken := none,
                        scope := none, tokenType := none,
                        expiresIn := none, user := none,
                        loggedOut := none }],
           nextTokenId := 2 }) :=
  ⟨rfl, rfl, by
    have := c10_token_persisted_on_failed_exchange c10Env c10Conf "/dflt"
      c10Db c10Req c10Flow rfl rfl
    exact this⟩
